import Mathlib

/-!
# Verification of the footstep_planner core

Shallow embedding of `footstep_planner/src/PlanningState.cpp` and
`footstep_planner/src/FootstepPlanner.cpp` (RPL-CS-UCL/humanoid_navigation),
together with proofs about the embedded operations.

Machine `unsigned int` arithmetic is modelled over `Nat` with explicit
reduction modulo `2^32`; continuous quantities are modelled over `ℚ`, with
trigonometric values of an angle passed as exact rational parameters where
the C++ code calls `sin`/`cos`.
-/

/-- The stance-leg enumeration.  The enum itself lives in a header that is
not part of the two translated source files; the spec lists the three
values LEFT, RIGHT, NONE (the source spells the third one NOLEG). -/
inductive Leg where
  | RIGHT
  | LEFT
  | NOLEG
deriving DecidableEq, Repr

/-- Numeric value of a `Leg`, as used when the C++ code feeds `ivLeg` to the
integer hash (enumerators are numbered in declaration order). -/
def legVal : Leg → Nat
  | Leg.RIGHT => 0
  | Leg.LEFT => 1
  | Leg.NOLEG => 2

/-- Reduction modulo `2^32`, the wrap-around of C++ `unsigned int`. -/
def u32 (n : Nat) : Nat := n % 4294967296

/-- Modelled from the spec: the "integer avalanche hash" `int_hash` used by
`PlanningState::calculateHashTag` is declared in `helper.h`, which is not
among the translated source files.  It is modelled as the standard 32-bit
integer avalanche mix (shift/add/xor rounds) on unsigned 32-bit values. -/
def int_hash (key : Nat) : Nat :=
  let k1 := u32 (key + u32 (key <<< 12))
  let k2 := u32 (k1 ^^^ (k1 >>> 22))
  let k3 := u32 (k2 + u32 (k2 <<< 4))
  let k4 := u32 (k3 ^^^ (k3 >>> 9))
  let k5 := u32 (k4 + u32 (k4 <<< 10))
  let k6 := u32 (k5 ^^^ (k5 >>> 2))
  let k7 := u32 (k6 + u32 (k6 <<< 7))
  u32 (k7 ^^^ (k7 >>> 12))

/-- Two's-complement view of a C++ `int` as an `unsigned int` value. -/
def intToU32 (i : Int) : Nat := (i % 4294967296).toNat

/-- The shifted sum of the per-field avalanche hashes, the argument of the
outer `int_hash` call in `PlanningState::calculateHashTag`
(PlanningState.cpp lines 89-90). -/
def combineFields (x y θ : Int) (leg : Leg) : Nat :=
  u32 (u32 (int_hash (intToU32 x) <<< 3) + u32 (int_hash (intToU32 y) <<< 2) +
       u32 (int_hash (intToU32 θ) <<< 1) + int_hash (legVal leg))

/-- `PlanningState::calculateHashTag` (PlanningState.cpp lines 85-92):
`int_hash((int_hash(ivX) << 3) + (int_hash(ivY) << 2) +
(int_hash(ivTheta) << 1) + (int_hash(ivLeg))) % max_hash_size`. -/
def calculateHashTag (x y θ : Int) (leg : Leg) (maxHashSize : Nat) : Nat :=
  int_hash (combineFields x y θ leg) % maxHashSize

/-- The hash-tag computation as the spec words it: per-field avalanche
hashes, shifted, summed, and then the modulus with "no further
transformation" — i.e. without the outer `int_hash`. -/
def specHashTag (x y θ : Int) (leg : Leg) (maxHashSize : Nat) : Nat :=
  combineFields x y θ leg % maxHashSize

/-- The discretised planning state (PlanningState.h/.cpp): grid cell
coordinates, angle bin, stance leg, the planner-assigned id and the stored
hash tag. -/
structure PlanningState where
  ivX : Int
  ivY : Int
  ivTheta : Int
  ivLeg : Leg
  ivId : Int
  ivHashTag : Nat
deriving DecidableEq, Repr

/-- `PlanningState::operator==` (PlanningState.cpp lines 95-106): hash tags
compared first (mismatch short-circuits to `false`), then the four
discrete fields. -/
def PlanningState.beq (s1 s2 : PlanningState) : Bool :=
  if s1.ivHashTag ≠ s2.ivHashTag then false
  else
    s1.ivX == s2.ivX && s1.ivY == s2.ivY && s1.ivTheta == s2.ivTheta &&
      decide (s1.ivLeg = s2.ivLeg)

/-- `PlanningState::operator!=` (PlanningState.cpp lines 109-114):
`!(*this == s2)`. -/
def PlanningState.bne (s1 s2 : PlanningState) : Bool :=
  !(PlanningState.beq s1 s2)

/-- Result of a C++ `assert`: `ok` when the asserted condition holds,
abort (modelled as `error`) otherwise. -/
def cassert {α : Type} (b : Bool) (v : α) : Except String α :=
  if b then Except.ok v else Except.error "assertion failed"

/-- The `PlanningState(int x, int y, int theta, Leg leg, ...)` constructor
(PlanningState.cpp lines 50-57).  Its member-initialiser list sets `ivX`,
`ivY`, `ivTheta`, `ivLeg` and `ivHashTag` but omits `ivId`, which is
therefore left indeterminate; the parameter `junkId` stands for that
indeterminate value. -/
def PlanningState.mkFromInts (junkId : Int) (x y θ : Int) (leg : Leg)
    (maxHashSize : Nat) : PlanningState :=
  { ivX := x, ivY := y, ivTheta := θ, ivLeg := leg, ivId := junkId,
    ivHashTag := calculateHashTag x y θ leg maxHashSize }

/-- The continuous `State` at the system boundary: world coordinates, world
orientation and stance leg. -/
structure State where
  x : ℚ
  y : ℚ
  theta : ℚ
  leg : Leg
deriving DecidableEq, Repr

/-- The `PlanningState(const State& s, ...)` constructor (PlanningState.cpp
lines 60-68).  The discretisation helpers `state_2_cell` and
`angle_state_2_cell` are declared in a header outside the translated
sources, so they are taken as parameters `s2c` (world value, cell size ↦
cell) and `a2c` (angle, bin count ↦ bin); `ivId` is initialised to `-1`. -/
def PlanningState.mkFromState (s2c : ℚ → ℚ → Int) (a2c : ℚ → Nat → Int)
    (s : State) (cellSize : ℚ) (numAngleBins maxHashSize : Nat) :
    PlanningState :=
  let ix := s2c s.x cellSize
  let iy := s2c s.y cellSize
  let iθ := a2c s.theta numAngleBins
  { ivX := ix, ivY := iy, ivTheta := iθ, ivLeg := s.leg, ivId := -1,
    ivHashTag := calculateHashTag ix iy iθ s.leg maxHashSize }

/-- The `PlanningState(double x, double y, double theta, Leg leg, ...)`
constructor (PlanningState.cpp lines 37-48): the member initialisers
discretise the inputs and set `ivId` to `-1`, and then the body executes
`assert(false)` unconditionally, so every invocation aborts. -/
def PlanningState.mkFromDoubles (s2c : ℚ → ℚ → Int) (a2c : ℚ → Nat → Int)
    (x y θ : ℚ) (leg : Leg) (cellSize : ℚ)
    (numAngleBins maxHashSize : Nat) : Except String PlanningState :=
  let ix := s2c x cellSize
  let iy := s2c y cellSize
  let iθ := a2c θ numAngleBins
  cassert false
    { ivX := ix, ivY := iy, ivTheta := iθ, ivLeg := leg, ivId := -1,
      ivHashTag := calculateHashTag ix iy iθ leg maxHashSize }

/-- C1: `s1 == s2` holds iff the hash tags match and the `x`, `y`, `theta`
and `leg` fields all match exactly; a hash-tag mismatch alone already gives
`s1 != s2`; and `operator!=` is exactly the negation of `operator==`. -/
theorem planningState_eq_iff (s1 s2 : PlanningState) :
    (PlanningState.beq s1 s2 = true ↔
      (s1.ivHashTag = s2.ivHashTag ∧ s1.ivX = s2.ivX ∧ s1.ivY = s2.ivY ∧
        s1.ivTheta = s2.ivTheta ∧ s1.ivLeg = s2.ivLeg)) ∧
    (s1.ivHashTag ≠ s2.ivHashTag → PlanningState.bne s1 s2 = true) ∧
    PlanningState.bne s1 s2 = !(PlanningState.beq s1 s2) := by
  refine ⟨?_, ?_, rfl⟩
  · by_cases h : s1.ivHashTag = s2.ivHashTag
    · simp [PlanningState.beq, h, and_assoc]
    · simp [PlanningState.beq, h]
  · intro h
    simp [PlanningState.bne, PlanningState.beq, h]

/-- Witness for `planningState_eq_iff`: two concrete states differing only
in the stored hash tag compare not-equal. -/
theorem planningState_eq_iff_wit :
    PlanningState.bne ⟨0, 0, 0, Leg.LEFT, -1, 0⟩ ⟨0, 0, 0, Leg.LEFT, -1, 1⟩ =
      true :=
  (planningState_eq_iff ⟨0, 0, 0, Leg.LEFT, -1, 0⟩
    ⟨0, 0, 0, Leg.LEFT, -1, 1⟩).2.1 (by decide)

/-- C5 counterexample: at `x = 1, y = 2, theta = 3, leg = LEFT,
maxHashSize = 65536`, the code's hash tag differs from the claim's
"shift, sum, then modulus with no further transformation" value, because
the code applies the avalanche hash once more to the shifted sum before
the modulus. -/
theorem calculateHashTag_no_outer_hash_cex :
    calculateHashTag 1 2 3 Leg.LEFT 65536 ≠
      specHashTag 1 2 3 Leg.LEFT 65536 := by decide

/-- C5 amended: the hash tag equals
`int_hash((int_hash x << 3) + (int_hash y << 2) + (int_hash theta << 1) +
int_hash leg) mod maxHashSize` — the shifted sum of the per-field avalanche
hashes is passed through the avalanche hash once more before the modulus. -/
theorem calculateHashTag_eq_outer_int_hash (x y θ : Int) (leg : Leg)
    (m : Nat) :
    calculateHashTag x y θ leg m =
      int_hash (u32 (u32 (int_hash (intToU32 x) <<< 3) +
        u32 (int_hash (intToU32 y) <<< 2) +
        u32 (int_hash (intToU32 θ) <<< 1) + int_hash (legVal leg))) % m :=
  rfl

/-- C6: the integer-fields constructor leaves `ivId` indeterminate (its
member-initialiser list omits `ivId`), so a state built by it need not
carry `id = -1`; the `State`-based constructor does set `ivId = -1`. -/
theorem mkFromInts_id_uninitialised :
    (PlanningState.mkFromInts 7 1 2 3 Leg.LEFT 65536).ivId = 7 ∧
    (PlanningState.mkFromInts 7 1 2 3 Leg.LEFT 65536).ivId ≠ -1 ∧
    (PlanningState.mkFromState (fun _ _ => 0) (fun _ _ => 0)
      ⟨1, 2, 3, Leg.LEFT⟩ 1 64 65536).ivId = -1 :=
  ⟨rfl, by decide, rfl⟩

/-- C10: the constructor taking raw continuous doubles executes
`assert(false)` unconditionally, so every invocation aborts, for every
choice of inputs and of discretisation helpers. -/
theorem mkFromDoubles_always_aborts (s2c : ℚ → ℚ → Int)
    (a2c : ℚ → Nat → Int) (x y θ : ℚ) (leg : Leg) (cellSize : ℚ)
    (numAngleBins maxHashSize : Nat) :
    PlanningState.mkFromDoubles s2c a2c x y θ leg cellSize numAngleBins
      maxHashSize = Except.error "assertion failed" :=
  rfl

/-- `FootstepPlanner::getFootPosition` (FootstepPlanner.cpp lines 797-815):
shift the robot pose perpendicularly by half the foot separation,
`+` for the left foot and `-` otherwise, keeping the orientation.  The code
evaluates `sin(robot.theta)` and `cos(robot.theta)`; the embedding receives
those two values as the exact rationals `sinθ` and `cosθ`. -/
def getFootPosition (robot : State) (sinθ cosθ : ℚ) (footSeparation : ℚ)
    (side : Leg) : State :=
  let shift_x := -sinθ * (footSeparation / 2)
  let shift_y := cosθ * (footSeparation / 2)
  let sign : ℚ := if side = Leg.LEFT then 1 else -1
  { x := robot.x + sign * shift_x, y := robot.y + sign * shift_y,
    theta := robot.theta, leg := side }

/-- The mutable planner fields that the embedded operations read and write:
whether a map has been set (`ivMapPtr` non-null in the code), whether the
start and goal poses have been set up, and the four recorded foot poses. -/
structure FootstepPlanner where
  ivMapSet : Bool
  ivStartPoseSetUp : Bool
  ivGoalPoseSetUp : Bool
  ivStartFootLeft : State
  ivStartFootRight : State
  ivGoalFootLeft : State
  ivGoalFootRight : State
deriving DecidableEq, Repr

/-- `FootstepPlanner::plan()` (FootstepPlanner.cpp lines 407-428): fail
when no map is loaded or the start or goal pose is not set; otherwise
reset the environment, recreate the search algorithm and run the search
(all three modelled by the `search` parameter).  The result records the
returned flag, the planner fields afterwards, and whether a search was
attempted. -/
def FootstepPlanner.plan (search : FootstepPlanner → Bool × FootstepPlanner)
    (p : FootstepPlanner) : Bool × FootstepPlanner × Bool :=
  if !p.ivMapSet then (false, p, false)
  else if !p.ivGoalPoseSetUp || !p.ivStartPoseSetUp then (false, p, false)
  else
    let r := search p
    (r.1, r.2, true)

/-- `FootstepPlanner::replan()` (FootstepPlanner.cpp lines 456-471): the
same precondition checks as `plan()`, then `run()` without resetting. -/
def FootstepPlanner.replan
    (search : FootstepPlanner → Bool × FootstepPlanner)
    (p : FootstepPlanner) : Bool × FootstepPlanner × Bool :=
  if !p.ivMapSet then (false, p, false)
  else if !p.ivGoalPoseSetUp || !p.ivStartPoseSetUp then (false, p, false)
  else
    let r := search p
    (r.1, r.2, true)

/-- `FootstepPlanner::setGoal(float, float, float)` (FootstepPlanner.cpp
lines 565-595): fail when no map is set; otherwise build the two goal-foot
poses with `getFootPosition` and fail, leaving the planner untouched, when
either footprint is occupied (the environment's `occupied` check is the
parameter `occupied`); on success record both feet and mark the goal as
set. -/
def FootstepPlanner.setGoal (occupied : State → Bool) (p : FootstepPlanner)
    (x y θ sinθ cosθ footSeparation : ℚ) : Bool × FootstepPlanner :=
  if !p.ivMapSet then (false, p)
  else
    let goal : State := ⟨x, y, θ, Leg.NOLEG⟩
    let leftFoot := getFootPosition goal sinθ cosθ footSeparation Leg.LEFT
    let rightFoot := getFootPosition goal sinθ cosθ footSeparation Leg.RIGHT
    if occupied leftFoot || occupied rightFoot then (false, p)
    else
      (true, { p with ivGoalFootLeft := leftFoot,
                      ivGoalFootRight := rightFoot,
                      ivGoalPoseSetUp := true })

/-- `FootstepPlanner::setStart(float, float, float)` together with the
`setStart(const State&, const State&)` overload it calls
(FootstepPlanner.cpp lines 608-660): fail when no map is set; build both
start feet; fail, leaving the planner untouched, when either foot is
occupied; otherwise record them and mark the start as set. -/
def FootstepPlanner.setStart (occupied : State → Bool)
    (p : FootstepPlanner) (x y θ sinθ cosθ footSeparation : ℚ) :
    Bool × FootstepPlanner :=
  if !p.ivMapSet then (false, p)
  else
    let start : State := ⟨x, y, θ, Leg.NOLEG⟩
    let leftFoot := getFootPosition start sinθ cosθ footSeparation Leg.LEFT
    let rightFoot := getFootPosition start sinθ cosθ footSeparation Leg.RIGHT
    if occupied leftFoot || occupied rightFoot then (false, p)
    else
      (true, { p with ivStartFootLeft := leftFoot,
                      ivStartFootRight := rightFoot,
                      ivStartPoseSetUp := true })

/-- `FootstepPlanner::plan(float, ..., float)` (FootstepPlanner.cpp lines
442-453): `setStart && setGoal` (short-circuiting), and only on success the
no-argument `plan()`. -/
def FootstepPlanner.planPoses
    (search : FootstepPlanner → Bool × FootstepPlanner)
    (occupied : State → Bool) (p : FootstepPlanner)
    (sx sy sθ ssin scos gx gy gθ gsin gcos footSeparation : ℚ) :
    Bool × FootstepPlanner × Bool :=
  let rs := FootstepPlanner.setStart occupied p sx sy sθ ssin scos
    footSeparation
  if !rs.1 then (false, rs.2, false)
  else
    let rg := FootstepPlanner.setGoal occupied rs.2 gx gy gθ gsin gcos
      footSeparation
    if !rg.1 then (false, rg.2, false)
    else FootstepPlanner.plan search rg.2

/-- The loop body of `FootstepPlanner::extractSolution` (FootstepPlanner.cpp
lines 386-404): walk the solution ids, resolving each id through the
environment's `getState` (modelled as the parameter `getState`,
returning `none` for an unregistered id); on the first unresolvable id,
clear the path and report failure. -/
def extractSolutionAux (getState : Int → Option State) :
    List Int → List State → Bool × List State
  | [], acc => (true, acc)
  | i :: rest, acc =>
    match getState i with
    | none => (false, [])
    | some s => extractSolutionAux getState rest (acc ++ [s])

/-- `FootstepPlanner::extractSolution`: `ivPath` (the previously stored
path, the last parameter) is cleared at entry, then the ids are resolved
one by one; the result is the returned flag together with the stored path
after the call. -/
def extractSolution (getState : Int → Option State) (stateIds : List Int)
    (ivPath : List State) : Bool × List State :=
  extractSolutionAux getState stateIds []

/-- Helper for the amended C2: once some id in the remaining list is
unresolvable, the extraction loop returns `false` with an empty path,
whatever has been accumulated so far. -/
theorem extractSolutionAux_fail (getState : Int → Option State) :
    ∀ (ids : List Int) (acc : List State),
      (∃ i ∈ ids, getState i = none) →
      extractSolutionAux getState ids acc = (false, []) := by
  intro ids
  induction ids with
  | nil =>
    intro acc h
    rcases h with ⟨i, hi, _⟩
    exact absurd hi (List.not_mem_nil i)
  | cons j rest ih =>
    intro acc h
    rcases h with ⟨i, hi, hnone⟩
    rcases List.mem_cons.mp hi with hij | hirest
    · subst hij
      simp [extractSolutionAux, hnone]
    · cases hj : getState j with
      | none => simp [extractSolutionAux, hj]
      | some s =>
        simp only [extractSolutionAux, hj]
        exact ih (acc ++ [s]) ⟨i, hirest, hnone⟩

/-- C2 counterexample: with a previously stored one-state path, a solution
sequence containing an unresolvable id makes `extractSolution` report
failure with the stored path cleared to empty — the prior plan is *not*
retained. -/
theorem extractSolution_drops_prior_path :
    extractSolution (fun _ => (none : Option State)) [0]
        [⟨0, 0, 0, Leg.LEFT⟩] = (false, []) ∧
      [] ≠ [(⟨0, 0, 0, Leg.LEFT⟩ : State)] := by
  constructor
  · rfl
  · decide

/-- C2 amended: if some id in the solution sequence cannot be resolved back
to a pose, the failure is reported (`false` is returned) and the stored
path is cleared to empty — any previously extracted plan is discarded, not
retained. -/
theorem extractSolution_fail_clears_path (getState : Int → Option State)
    (stateIds : List Int) (priorPath : List State)
    (h : ∃ i ∈ stateIds, getState i = none) :
    extractSolution getState stateIds priorPath = (false, []) :=
  extractSolutionAux_fail getState stateIds [] h

/-- Witness for `extractSolution_fail_clears_path` at a concrete failing
id and a concrete nonempty prior path. -/
theorem extractSolution_fail_clears_path_wit :
    extractSolution (fun _ => (none : Option State)) [3]
      [⟨1, 2, 0, Leg.RIGHT⟩] = (false, []) :=
  extractSolution_fail_clears_path (fun _ => none) [3] [⟨1, 2, 0, Leg.RIGHT⟩]
    ⟨3, by decide, rfl⟩

/-- C4: (a) `plan()` and `replan()` called with no map, or with the start
or goal pose not set, return `false`, attempt no search, and leave the
planner fields unchanged; (b) `setGoal` with an occupied left or right
goal-foot footprint returns `false` and leaves the planner unchanged;
(c) through the pose-taking `plan` overload, an occupied goal footprint
yields `false` with no search attempted. -/
theorem plan_preconditions :
    (∀ (search : FootstepPlanner → Bool × FootstepPlanner)
        (p : FootstepPlanner),
      p.ivMapSet = false ∨ p.ivStartPoseSetUp = false ∨
        p.ivGoalPoseSetUp = false →
      FootstepPlanner.plan search p = (false, p, false) ∧
        FootstepPlanner.replan search p = (false, p, false)) ∧
    (∀ (occupied : State → Bool) (p : FootstepPlanner)
        (x y θ sinθ cosθ sep : ℚ),
      p.ivMapSet = true →
      occupied (getFootPosition ⟨x, y, θ, Leg.NOLEG⟩ sinθ cosθ sep
          Leg.LEFT) = true ∨
        occupied (getFootPosition ⟨x, y, θ, Leg.NOLEG⟩ sinθ cosθ sep
          Leg.RIGHT) = true →
      FootstepPlanner.setGoal occupied p x y θ sinθ cosθ sep = (false, p)) ∧
    (∀ (search : FootstepPlanner → Bool × FootstepPlanner)
        (occupied : State → Bool) (p : FootstepPlanner)
        (sx sy sθ ssin scos gx gy gθ gsin gcos sep : ℚ),
      occupied (getFootPosition ⟨gx, gy, gθ, Leg.NOLEG⟩ gsin gcos sep
          Leg.LEFT) = true ∨
        occupied (getFootPosition ⟨gx, gy, gθ, Leg.NOLEG⟩ gsin gcos sep
          Leg.RIGHT) = true →
      (FootstepPlanner.planPoses search occupied p sx sy sθ ssin scos gx gy
          gθ gsin gcos sep).1 = false ∧
        (FootstepPlanner.planPoses search occupied p sx sy sθ ssin scos gx
          gy gθ gsin gcos sep).2.2 = false) := by
  refine ⟨?_, ?_, ?_⟩
  · intro search p h
    rcases h with h | h | h <;>
      cases hm : p.ivMapSet <;>
      cases hs : p.ivStartPoseSetUp <;>
      cases hg : p.ivGoalPoseSetUp <;>
      simp_all [FootstepPlanner.plan, FootstepPlanner.replan]
  · intro occupied p x y θ sinθ cosθ sep hm hocc
    rcases hocc with h | h <;>
      simp [FootstepPlanner.setGoal, hm, h]
  · intro search occupied p sx sy sθ ssin scos gx gy gθ gsin gcos sep hocc
    by_cases hm : p.ivMapSet
    · by_cases hsocc :
        (occupied (getFootPosition ⟨sx, sy, sθ, Leg.NOLEG⟩ ssin scos sep
            Leg.LEFT) ||
          occupied (getFootPosition ⟨sx, sy, sθ, Leg.NOLEG⟩ ssin scos sep
            Leg.RIGHT)) = true
      · simp [FootstepPlanner.planPoses, FootstepPlanner.setStart, hm,
          hsocc]
      · rcases hocc with h | h <;>
          simp [FootstepPlanner.planPoses, FootstepPlanner.setStart,
            FootstepPlanner.setGoal, hm, hsocc, h]
    · have hm2 : p.ivMapSet = false := by
        cases hmb : p.ivMapSet
        · rfl
        · exact absurd hmb hm
      simp [FootstepPlanner.planPoses, FootstepPlanner.setStart, hm2]

/-- Witness for `plan_preconditions`: a planner with no map refuses to
plan, and an all-occupied map makes a concrete `setGoal` call fail without
touching the planner. -/
theorem plan_preconditions_wit :
    FootstepPlanner.plan (fun q => (true, q))
        ⟨false, false, false, ⟨0, 0, 0, Leg.NOLEG⟩, ⟨0, 0, 0, Leg.NOLEG⟩,
          ⟨0, 0, 0, Leg.NOLEG⟩, ⟨0, 0, 0, Leg.NOLEG⟩⟩ =
      (false, ⟨false, false, false, ⟨0, 0, 0, Leg.NOLEG⟩,
        ⟨0, 0, 0, Leg.NOLEG⟩, ⟨0, 0, 0, Leg.NOLEG⟩, ⟨0, 0, 0, Leg.NOLEG⟩⟩,
        false) ∧
    FootstepPlanner.setGoal (fun _ => true)
        ⟨true, false, false, ⟨0, 0, 0, Leg.NOLEG⟩, ⟨0, 0, 0, Leg.NOLEG⟩,
          ⟨0, 0, 0, Leg.NOLEG⟩, ⟨0, 0, 0, Leg.NOLEG⟩⟩ 0 0 0 0 1 1 =
      (false, ⟨true, false, false, ⟨0, 0, 0, Leg.NOLEG⟩,
        ⟨0, 0, 0, Leg.NOLEG⟩, ⟨0, 0, 0, Leg.NOLEG⟩, ⟨0, 0, 0, Leg.NOLEG⟩⟩) :=
  ⟨(plan_preconditions.1 (fun q => (true, q))
      ⟨false, false, false, ⟨0, 0, 0, Leg.NOLEG⟩, ⟨0, 0, 0, Leg.NOLEG⟩,
        ⟨0, 0, 0, Leg.NOLEG⟩, ⟨0, 0, 0, Leg.NOLEG⟩⟩ (Or.inl rfl)).1,
    plan_preconditions.2.1 (fun _ => true)
      ⟨true, false, false, ⟨0, 0, 0, Leg.NOLEG⟩, ⟨0, 0, 0, Leg.NOLEG⟩,
        ⟨0, 0, 0, Leg.NOLEG⟩, ⟨0, 0, 0, Leg.NOLEG⟩⟩ 0 0 0 0 1 1 rfl
      (Or.inl rfl)⟩

/-- C9: `getFootPosition` keeps the orientation, sets the requested leg,
offsets the position by `(-sin θ, cos θ) * footSeparation / 2` — added for
LEFT and subtracted for RIGHT — and consequently (using `sin² + cos² = 1`)
the two feet of one robot pose are exactly `footSeparation` apart (stated
on squared distances) and symmetric about the robot position. -/
theorem getFootPosition_geometry (robot : State) (sinθ cosθ sep : ℚ)
    (side : Leg) (h : sinθ ^ 2 + cosθ ^ 2 = 1) :
    (getFootPosition robot sinθ cosθ sep side).theta = robot.theta ∧
    (getFootPosition robot sinθ cosθ sep side).leg = side ∧
    ((getFootPosition robot sinθ cosθ sep Leg.LEFT).x =
        robot.x + -sinθ * (sep / 2) ∧
      (getFootPosition robot sinθ cosθ sep Leg.LEFT).y =
        robot.y + cosθ * (sep / 2)) ∧
    ((getFootPosition robot sinθ cosθ sep Leg.RIGHT).x =
        robot.x - -sinθ * (sep / 2) ∧
      (getFootPosition robot sinθ cosθ sep Leg.RIGHT).y =
        robot.y - cosθ * (sep / 2)) ∧
    ((getFootPosition robot sinθ cosθ sep Leg.LEFT).x -
        (getFootPosition robot sinθ cosθ sep Leg.RIGHT).x) ^ 2 +
      ((getFootPosition robot sinθ cosθ sep Leg.LEFT).y -
        (getFootPosition robot sinθ cosθ sep Leg.RIGHT).y) ^ 2 = sep ^ 2 ∧
    ((getFootPosition robot sinθ cosθ sep Leg.LEFT).x +
        (getFootPosition robot sinθ cosθ sep Leg.RIGHT).x = 2 * robot.x ∧
      (getFootPosition robot sinθ cosθ sep Leg.LEFT).y +
        (getFootPosition robot sinθ cosθ sep Leg.RIGHT).y = 2 * robot.y) := by
  refine ⟨rfl, rfl,
    ⟨by simp [getFootPosition]; try ring, by simp [getFootPosition]; try ring⟩,
    ⟨by simp [getFootPosition]; try ring, by simp [getFootPosition]; try ring⟩,
    ?_,
    ⟨by simp [getFootPosition]; try ring, by simp [getFootPosition]; try ring⟩⟩
  simp [getFootPosition]
  linear_combination sep ^ 2 * h

/-- Witness for `getFootPosition_geometry` at `sin θ = 0, cos θ = 1`,
`footSeparation = 1`: the two feet are exactly distance 1 apart. -/
theorem getFootPosition_geometry_wit :
    ((0 : ℚ) ^ 2 + 1 ^ 2 = 1) ∧
    ((getFootPosition ⟨0, 0, 0, Leg.NOLEG⟩ 0 1 1 Leg.LEFT).x -
        (getFootPosition ⟨0, 0, 0, Leg.NOLEG⟩ 0 1 1 Leg.RIGHT).x) ^ 2 +
      ((getFootPosition ⟨0, 0, 0, Leg.NOLEG⟩ 0 1 1 Leg.LEFT).y -
        (getFootPosition ⟨0, 0, 0, Leg.NOLEG⟩ 0 1 1 Leg.RIGHT).y) ^ 2 =
      1 ^ 2 :=
  ⟨by norm_num,
    (getFootPosition_geometry ⟨0, 0, 0, Leg.NOLEG⟩ 0 1 1 Leg.LEFT
      (by norm_num)).2.2.2.2.1⟩

/-- The occupancy-map view that `updateEnvironment` reads: resolution,
frame size in cells, and the binary bitmap (`occ x y = true` when the bit
of cell `(x, y)` is set). -/
structure GridMap where
  width : Nat
  height : Nat
  resolution : ℚ
  occ : Nat → Nat → Bool

/-- The cells visited by the double loop of
`FootstepPlanner::updateEnvironment` (FootstepPlanner.cpp lines 725-748):
`y` over the rows (outer), `x` over the columns (inner). -/
def cellList (width height : Nat) : List (Nat × Nat) :=
  (List.range height).flatMap fun y => (List.range width).map fun x => (x, y)

/-- One bit of `cv::bitwise_xor(old_map->binaryMap(), ivMapPtr->binaryMap())`
(FootstepPlanner.cpp line 707): did the occupancy of cell `(x, y)` flip? -/
def xorDiff (oldMap newMap : GridMap) (x y : Nat) : Bool :=
  oldMap.occ x y != newMap.occ x y

/-- The raw changed cells: the cells of the new map's frame whose occupancy
flipped between the two bitmaps. -/
def rawChangedCells (oldMap newMap : GridMap) : List (Nat × Nat) :=
  (cellList newMap.width newMap.height).filter fun c =>
    xorDiff oldMap newMap c.1 c.2

/-- Squared Euclidean distance between two cells, in pixels — the quantity
whose square root `cv::distanceTransform` with `CV_DIST_L2` /
`CV_DIST_MASK_PRECISE` computes towards the nearest changed cell. -/
def cellDistSq (c d : Nat × Nat) : Int :=
  ((c.1 : Int) - (d.1 : Int)) ^ 2 + ((c.2 : Int) - (d.2 : Int)) ^ 2

/-- The square of `max_foot_radius` (FootstepPlanner.cpp lines 715-718):
`sqrt((|originShiftX| + footsizeX/2)² + (|originShiftY| + footsizeY/2)²)
/ resolution`, squared so the embedding stays in `ℚ`. -/
def maxFootRadiusSq (originShiftX originShiftY footsizeX footsizeY
    resolution : ℚ) : ℚ :=
  ((|originShiftX| + footsizeX / 2) ^ 2 + (|originShiftY| + footsizeY / 2) ^ 2)
    / resolution ^ 2

/-- Membership of cell `c` in the thresholded distance-transform mask
`changedDistMap <= max_foot_radius` (FootstepPlanner.cpp line 719): is
some flipped cell within the (squared) inflation radius `radSq`? -/
def inflatedPred (changed : List (Nat × Nat)) (radSq : ℚ) (c : Nat × Nat) :
    Bool :=
  changed.any fun d => decide ((cellDistSq c d : ℚ) ≤ radSq)

/-- The cells of the inflated changed mask, in the order the double loop
visits them; `num_changed_cells` in the code is the length of this list. -/
def inflatedChangedCells (oldMap newMap : GridMap) (radSq : ℚ) :
    List (Nat × Nat) :=
  (cellList newMap.width newMap.height).filter
    (inflatedPred (rawChangedCells oldMap newMap) radSq)

/-- The enumerated changed states (FootstepPlanner.cpp lines 731-741): for
every cell of the inflated mask, one candidate state per angle bin, the
cell fixed.  The code stores the world coordinates of the cell and the
continuous angle of the bin; as both conversions (`mapToWorld`,
`angle_cell_2_state`) are injective on the frame and on
`[0, numAngleBins)`, the embedding keeps the cell and the bin index. -/
def changedStates (oldMap newMap : GridMap) (radSq : ℚ)
    (numAngleBins : Nat) : List ((Nat × Nat) × Nat) :=
  (inflatedChangedCells oldMap newMap radSq).flatMap fun c =>
    (List.range numAngleBins).map fun θ => (c, θ)

/-- The outcome of a map update: no replanning necessary, an incremental
cost-change notification on the given state ids, or a full reset (clear
the environment and recreate the search algorithm). -/
inductive UpdateAction where
  | noop
  | incremental (ids : List Int)
  | reset
deriving DecidableEq, Repr

/-- `FootstepPlanner::updateEnvironment` (FootstepPlanner.cpp lines
687-795).  The compatibility gate requires the configured planner to be
the `ADPlanner` and the new map to match the old map's resolution and both
dimensions; the environment's id lookups `getSuccsOfGridCells` and
`getPredsOfGridCells` are outside the translated sources and are taken as
the parameters `succsOfGridCells` and `predsOfGridCells`. -/
def updateEnvironment (plannerType : String) (oldMap newMap : GridMap)
    (radSq : ℚ) (numAngleBins : Nat) (changedCellsLimit : Nat)
    (forwardSearch : Bool)
    (succsOfGridCells predsOfGridCells :
      List ((Nat × Nat) × Nat) → List Int) : UpdateAction :=
  if plannerType = "ADPlanner" ∧ newMap.resolution = oldMap.resolution ∧
      newMap.height = oldMap.height ∧ newMap.width = oldMap.width then
    let changed_states := changedStates oldMap newMap radSq numAngleBins
    let num_changed_cells := (inflatedChangedCells oldMap newMap radSq).length
    if num_changed_cells = 0 then UpdateAction.noop
    else if num_changed_cells ≤ changedCellsLimit then
      UpdateAction.incremental
        (if forwardSearch then succsOfGridCells changed_states
         else predsOfGridCells changed_states)
    else UpdateAction.reset
  else UpdateAction.reset

/-- Helper: emitting one pair per angle bin for each cell of a list
multiplies its length by the number of bins. -/
theorem flatMap_bins_length {α : Type} (bins : Nat) (l : List α) :
    (l.flatMap fun c => (List.range bins).map fun θ => (c, θ)).length =
      bins * l.length := by
  induction l with
  | nil => simp
  | cons c t ih =>
    simp [List.flatMap_cons, ih, Nat.mul_succ, Nat.add_comm]

/-- C7: the enumerated changed-state list carries exactly `numAngleBins`
candidates — one per angle bin, cell fixed — for each cell of the inflated
XOR difference: its length is `numAngleBins` times the number of inflated
changed cells, a pair `(c, θ)` is enumerated iff `c` is an inflated changed
cell and `θ` is an angle bin, and two identical bitmaps produce zero
changed states. -/
theorem changedStates_covers_inflated_region (oldMap newMap : GridMap)
    (radSq : ℚ) (bins : Nat) :
    (changedStates oldMap newMap radSq bins).length =
      bins * (inflatedChangedCells oldMap newMap radSq).length ∧
    (∀ (c : Nat × Nat) (θ : Nat),
      (c, θ) ∈ changedStates oldMap newMap radSq bins ↔
        c ∈ inflatedChangedCells oldMap newMap radSq ∧ θ < bins) ∧
    changedStates newMap newMap radSq bins = [] := by
  refine ⟨flatMap_bins_length bins _, ?_, ?_⟩
  · intro c θ
    simp only [changedStates, List.mem_flatMap, List.mem_map, List.mem_range]
    constructor
    · rintro ⟨a, ha, t, ht, hat⟩
      cases hat
      exact ⟨ha, ht⟩
    · rintro ⟨hc, hθ⟩
      exact ⟨c, hc, θ, hθ, rfl⟩
  · simp [changedStates, inflatedChangedCells, rawChangedCells, xorDiff,
      inflatedPred]

/-- C8: whenever the configured planner is not the `ADPlanner`, or the new
map's resolution or either dimension differs from the old map's, the
update takes the RESET path. -/
theorem updateEnvironment_incompatible_resets (pt : String)
    (oldMap newMap : GridMap) (radSq : ℚ) (bins limit : Nat) (fwd : Bool)
    (succs preds : List ((Nat × Nat) × Nat) → List Int)
    (h : ¬(pt = "ADPlanner" ∧ newMap.resolution = oldMap.resolution ∧
      newMap.height = oldMap.height ∧ newMap.width = oldMap.width)) :
    updateEnvironment pt oldMap newMap radSq bins limit fwd succs preds =
      UpdateAction.reset := by
  simp only [updateEnvironment, if_neg h]

/-- Witness for `updateEnvironment_incompatible_resets`: with the
`ARAPlanner` configured, even an unchanged map forces a reset. -/
theorem updateEnvironment_incompatible_resets_wit :
    updateEnvironment "ARAPlanner" ⟨1, 1, 1, fun _ _ => false⟩
      ⟨1, 1, 1, fun _ _ => false⟩ 0 1 5 true (fun _ => []) (fun _ => []) =
      UpdateAction.reset :=
  updateEnvironment_incompatible_resets "ARAPlanner"
    ⟨1, 1, 1, fun _ _ => false⟩ ⟨1, 1, 1, fun _ _ => false⟩ 0 1 5 true
    (fun _ => []) (fun _ => []) (by decide)

/-- A 5×5 all-free bitmap, resolution 1. -/
def cexOldMap : GridMap :=
  { width := 5, height := 5, resolution := 1, occ := fun _ _ => false }

/-- A 5×5 bitmap, resolution 1, with only the centre cell `(2, 2)`
occupied: exactly one raw changed cell with respect to `cexOldMap`. -/
def cexNewMap : GridMap :=
  { width := 5, height := 5, resolution := 1,
    occ := fun x y => x == 2 && y == 2 }

/-- C3 counterexample: one raw changed cell (which is `≤` the limit 2), yet
the code resets instead of updating incrementally, because the decision
compares the *inflated* cell count (here 9, with squared inflation radius
2) against the limit — not the raw count the claim names. -/
theorem updateEnvironment_raw_count_cex :
    (rawChangedCells cexOldMap cexNewMap).length = 1 ∧
    (rawChangedCells cexOldMap cexNewMap).length ≤ 2 ∧
    (inflatedChangedCells cexOldMap cexNewMap 2).length = 9 ∧
    updateEnvironment "ADPlanner" cexOldMap cexNewMap 2 1 2 true
      (fun _ => []) (fun _ => []) = UpdateAction.reset := by
  refine ⟨by decide, by decide, by decide, by decide⟩

/-- C3 amended: on the compatible path, the decision is taken on the number
of changed cells *after inflation*: zero inflated cells give a no-op (the
action carries no change, leaving the existing solution unaltered), a
nonzero inflated count within `changedCellsLimit` notifies the incremental
search of a cost change on the ids obtained from `getSuccsOfGridCells`
(forward search) or `getPredsOfGridCells` (backward search) applied to the
enumerated changed states, and a larger inflated count resets.  With a
nonnegative inflation radius the inflated count is zero exactly when the
raw changed-cell count is zero, so the no-op case agrees with the claim. -/
theorem updateEnvironment_decides_on_inflated_count (pt : String)
    (oldMap newMap : GridMap) (radSq : ℚ) (bins limit : Nat) (fwd : Bool)
    (succs preds : List ((Nat × Nat) × Nat) → List Int)
    (hcompat : pt = "ADPlanner" ∧ newMap.resolution = oldMap.resolution ∧
      newMap.height = oldMap.height ∧ newMap.width = oldMap.width) :
    ((inflatedChangedCells oldMap newMap radSq).length = 0 →
      updateEnvironment pt oldMap newMap radSq bins limit fwd succs preds =
        UpdateAction.noop) ∧
    ((inflatedChangedCells oldMap newMap radSq).length ≠ 0 →
      (inflatedChangedCells oldMap newMap radSq).length ≤ limit →
      updateEnvironment pt oldMap newMap radSq bins limit fwd succs preds =
        UpdateAction.incremental
          (if fwd then succs (changedStates oldMap newMap radSq bins)
           else preds (changedStates oldMap newMap radSq bins))) ∧
    (limit < (inflatedChangedCells oldMap newMap radSq).length →
      updateEnvironment pt oldMap newMap radSq bins limit fwd succs preds =
        UpdateAction.reset) ∧
    (0 ≤ radSq →
      ((rawChangedCells oldMap newMap).length = 0 ↔
        (inflatedChangedCells oldMap newMap radSq).length = 0)) := by
  refine ⟨?_, ?_, ?_, ?_⟩
  · intro h0
    simp only [updateEnvironment, if_pos hcompat, if_pos h0]
  · intro hne hle
    simp only [updateEnvironment, if_pos hcompat, if_neg hne, if_pos hle]
  · intro hgt
    have hne : (inflatedChangedCells oldMap newMap radSq).length ≠ 0 := by
      omega
    have hnle : ¬(inflatedChangedCells oldMap newMap radSq).length ≤ limit :=
      by omega
    simp only [updateEnvironment, if_pos hcompat, if_neg hne, if_neg hnle]
  · intro hrad
    constructor
    · intro hraw0
      have hraw : rawChangedCells oldMap newMap = [] :=
        List.length_eq_zero.mp hraw0
      simp [inflatedChangedCells, hraw, inflatedPred]
    · intro hinf0
      by_contra hraw0
      have hne : rawChangedCells oldMap newMap ≠ [] := by
        intro hnil
        exact hraw0 (by simp [hnil])
      obtain ⟨c, hc⟩ := List.exists_mem_of_ne_nil _ hne
      have hcell : c ∈ cellList newMap.width newMap.height :=
        (List.mem_filter.mp hc).1
      have hd0 : cellDistSq c c = 0 := by
        simp [cellDistSq]
      have hcpred :
          inflatedPred (rawChangedCells oldMap newMap) radSq c = true := by
        simp only [inflatedPred, List.any_eq_true]
        refine ⟨c, hc, ?_⟩
        rw [hd0]
        simpa using hrad
      have hmem : c ∈ inflatedChangedCells oldMap newMap radSq :=
        List.mem_filter.mpr ⟨hcell, hcpred⟩
      have hpos : 0 < (inflatedChangedCells oldMap newMap radSq).length :=
        List.length_pos_of_mem hmem
      omega

/-- Witness for `updateEnvironment_decides_on_inflated_count`: with the
centre cell flipped, squared inflation radius 2 (9 inflated cells) and
limit 9, the update is incremental. -/
theorem updateEnvironment_decides_on_inflated_count_wit :
    updateEnvironment "ADPlanner" cexOldMap cexNewMap 2 1 9 true
      (fun _ => [0]) (fun _ => []) = UpdateAction.incremental [0] :=
  (updateEnvironment_decides_on_inflated_count "ADPlanner" cexOldMap
    cexNewMap 2 1 9 true (fun _ => [0]) (fun _ => [])
    ⟨rfl, rfl, rfl, rfl⟩).2.1 (by decide) (by decide)
